import Mathlib

/-!
Verification of the Recommendation Scoring Engine
(services/recommendation_engine.py and tasks/recommendations.py).

The engine is embedded shallowly: every numeric quantity is a rational
number (Python floats are modelled exactly by ℚ; no claim here depends on
binary-float representation error), database fetches are replaced by the
list of records they return, and the Python dict results become records
with the same field names.
-/

namespace BusinessAnalyzer

/-- Python's `round(x, 2)` at integer tie-free points: round half to even
(banker's rounding) on the exact rational, mirroring the documented
semantics of `round`.  No claim in this development evaluates `round` at a
half-way point, where binary-float representation could further perturb
the result. -/
def roundHalfEven (x : ℚ) : ℤ :=
  let f := Int.floor x
  let r := x - f
  if r < 1/2 then f
  else if 1/2 < r then f + 1
  else if f % 2 = 0 then f else f + 1

/-- `round(x, 2)` from the source: round to two decimal places. -/
def round2 (x : ℚ) : ℚ :=
  (roundHalfEven (x * 100) : ℚ) / 100

/-- Row of the `stock_price` / `asset_price` fetch: `{date, close_price}`.
Dates are modelled as integers (day numbers); only their order matters. -/
structure PricePoint where
  date : ℤ
  close_price : ℚ
deriving DecidableEq

/-- Row of the `financial_statement` fetch: `{period_end_date, revenue}`. -/
structure FinancialStatement where
  period_end_date : ℤ
  revenue : ℚ
deriving DecidableEq

instance : Inhabited FinancialStatement := ⟨⟨0, 0⟩⟩

/-- Row of the `sentiment_analysis` fetch:
`{sentiment_score, confidence_level}`. -/
structure SentimentRecord where
  sentiment_score : ℚ
  confidence_level : ℚ
deriving DecidableEq

/-- `sorted(prices, key=lambda x: x['date'], reverse=True)`: the sort
relation, date descending. -/
def priceDesc (a b : PricePoint) : Prop := b.date ≤ a.date

instance : DecidableRel priceDesc :=
  fun a b => inferInstanceAs (Decidable (b.date ≤ a.date))

instance : IsTotal PricePoint priceDesc :=
  ⟨fun a b => le_total b.date a.date⟩

instance : IsTrans PricePoint priceDesc :=
  ⟨fun _ _ _ hab hbc => le_trans hbc hab⟩

/-- `sorted(statements, key=lambda x: x['period_end_date'], reverse=True)`:
the sort relation, period_end_date descending. -/
def stmtDesc (a b : FinancialStatement) : Prop :=
  b.period_end_date ≤ a.period_end_date

instance : DecidableRel stmtDesc :=
  fun a b => inferInstanceAs (Decidable (b.period_end_date ≤ a.period_end_date))

instance : IsTotal FinancialStatement stmtDesc :=
  ⟨fun a b => le_total b.period_end_date a.period_end_date⟩

instance : IsTrans FinancialStatement stmtDesc :=
  ⟨fun _ _ _ hab hbc => le_trans hbc hab⟩

/-- `calculate_price_score(prices)`: 60-day momentum score.
Mirrors the source line by line: length guard, defensive sort by date
descending, slice `[0:30]` and `[30:60]` averages, zero-denominator guard,
`50 + 50 * price_change`, clamp to `[0, 100]`. -/
def calculate_price_score (prices : List PricePoint) : ℚ :=
  if prices.length < 60 then 50
  else
    let prices_sorted := List.insertionSort priceDesc prices
    let avg_p1 := ((prices_sorted.take 30).map PricePoint.close_price).sum / 30
    let avg_p2 := (((prices_sorted.drop 30).take 30).map PricePoint.close_price).sum / 30
    if avg_p2 = 0 then 50
    else
      let price_change := (avg_p1 - avg_p2) / avg_p2
      let price_score := 50 + 50 * price_change
      max 0 (min 100 price_score)

/-- `calculate_financial_score(statements)`: revenue-trend score.
Length guard, sort by period_end_date descending, take revenues at sorted
indices 0 and 1, zero-denominator guard, `50 + 50 * growth`, clamp.
The guard `2 ≤ length` makes both indices in bounds, so `getD` never
returns its default. -/
def calculate_financial_score (statements : List FinancialStatement) : ℚ :=
  if statements.length < 2 then 50
  else
    let statements_sorted := List.insertionSort stmtDesc statements
    let r_current := (statements_sorted.getD 0 default).revenue
    let r_previous := (statements_sorted.getD 1 default).revenue
    if r_previous = 0 then 50
    else
      let financial_score := 50 + 50 * (r_current - r_previous) / r_previous
      max 0 (min 100 financial_score)

/-- `calculate_sentiment_score(db, ...)`, modelled on the list of rows its
query returns (the trailing-30-day sentiment records).  Empty window
returns the raw pair `(0.0, 0.0)`; otherwise averages are taken and the
average sentiment is mapped through `50 + 50 * avg` (no clamping). -/
def calculate_sentiment_score (sentiments : List SentimentRecord) : ℚ × ℚ :=
  if sentiments = [] then (0, 0)
  else
    let avg_sentiment :=
      (sentiments.map SentimentRecord.sentiment_score).sum / sentiments.length
    let avg_confidence :=
      (sentiments.map SentimentRecord.confidence_level).sum / sentiments.length
    (50 + 50 * avg_sentiment, avg_confidence)

/-- Result dict of `calculate_company_recommendation_no_ai`. -/
structure CompanyNoAiRecommendation where
  recommendation_type : String
  investment_score : ℚ
  risk_level : String
  price_score : ℚ
  financial_score : ℚ
deriving DecidableEq

/-- Result dict of `calculate_company_recommendation_with_ai`. -/
structure CompanyAiRecommendation where
  recommendation_type : String
  investment_score : ℚ
  risk_level : String
  price_score : ℚ
  financial_score : ℚ
  sentiment_score : ℚ
  confidence_level : ℚ
deriving DecidableEq

/-- Result dict of `calculate_asset_recommendation`. -/
structure AssetRecommendation where
  recommendation_type : String
  investment_score : ℚ
  risk_level : String
  price_score : ℚ
  sentiment_score : ℚ
  confidence_level : ℚ
deriving DecidableEq

/-- `calculate_company_recommendation_no_ai(db, company_id)`, modelled on
the fetched price and statement lists. -/
def calculate_company_recommendation_no_ai
    (prices : List PricePoint) (statements : List FinancialStatement) :
    CompanyNoAiRecommendation :=
  let ps := calculate_price_score prices
  let fs := calculate_financial_score statements
  let investment_score := 0.5 * ps + 0.5 * fs
  let recommendation_type :=
    if investment_score ≥ 60 then "invest"
    else if investment_score ≥ 40 then "hold"
    else "dont_invest"
  let risk_level :=
    if fs < 30 then "high"
    else if fs > 60 then "low"
    else "medium"
  { recommendation_type := recommendation_type
    investment_score := round2 investment_score
    risk_level := risk_level
    price_score := round2 ps
    financial_score := round2 fs }

/-- `calculate_company_recommendation_with_ai(db, company_id)`, modelled on
the fetched price, statement and sentiment lists. -/
def calculate_company_recommendation_with_ai
    (prices : List PricePoint) (statements : List FinancialStatement)
    (sentiments : List SentimentRecord) : CompanyAiRecommendation :=
  let ps := calculate_price_score prices
  let fs := calculate_financial_score statements
  let scPair := calculate_sentiment_score sentiments
  let sc := scPair.1
  let avg_conf := scPair.2
  let investment_score :=
    if avg_conf > 0.5 then 0.3 * ps + 0.3 * fs + 0.4 * sc
    else 0.4 * ps + 0.4 * fs + 0.2 * sc
  let risk_level :=
    if sc < 40 ∨ fs < 30 then "high"
    else if sc > 70 ∧ fs > 60 then "low"
    else "medium"
  let recommendation_type :=
    if investment_score ≥ 70 then "invest"
    else if investment_score ≥ 55 then "invest"
    else if investment_score ≥ 40 then "hold"
    else "dont_invest"
  { recommendation_type := recommendation_type
    investment_score := round2 investment_score
    risk_level := risk_level
    price_score := round2 ps
    financial_score := round2 fs
    sentiment_score := round2 sc
    confidence_level := round2 avg_conf }

/-- `calculate_asset_recommendation(db, asset_id)`, modelled on the fetched
price and sentiment lists (assets have no financial statements). -/
def calculate_asset_recommendation
    (prices : List PricePoint) (sentiments : List SentimentRecord) :
    AssetRecommendation :=
  let ps := calculate_price_score prices
  let scPair := calculate_sentiment_score sentiments
  let sc := scPair.1
  let avg_conf := scPair.2
  let investment_score :=
    if avg_conf > 0.5 then 0.5 * ps + 0.5 * sc
    else 0.7 * ps + 0.3 * sc
  let recommendation_type :=
    if investment_score ≥ 70 then "invest"
    else if investment_score ≥ 55 then "invest"
    else if investment_score ≥ 40 then "hold"
    else "dont_invest"
  let risk_level :=
    if sc < 40 then "high"
    else if sc > 70 then "low"
    else "medium"
  { recommendation_type := recommendation_type
    investment_score := round2 investment_score
    risk_level := risk_level
    price_score := round2 ps
    sentiment_score := round2 sc
    confidence_level := round2 avg_conf }

/-- `update_company_recommendations()` from tasks/recommendations.py,
modelled on the fetched company list.  The whole `try` body for one
company — classification, rationale generation, and the insert — is
abstracted as one fallible `step`, since the claim is about the loop's
control flow: on success `updated_count` is incremented, on any exception
the item is skipped (`except ... continue`) and the loop moves on; the
task returns `updated_count`. -/
def update_company_recommendations {α ε : Type}
    (step : α → Except ε Unit) (companies : List α) : ℕ :=
  if companies.isEmpty then 0
  else
    companies.foldl
      (fun updated_count company =>
        match step company with
        | .ok _ => updated_count + 1
        | .error _ => updated_count)
      0

/-- `update_asset_recommendations()` from tasks/recommendations.py: the
same per-item `try`/`except`/`continue` loop over assets (classification
plus insert abstracted as one fallible `step`), returning `updated_count`. -/
def update_asset_recommendations {α ε : Type}
    (step : α → Except ε Unit) (assets : List α) : ℕ :=
  if assets.isEmpty then 0
  else
    assets.foldl
      (fun updated_count asset =>
        match step asset with
        | .ok _ => updated_count + 1
        | .error _ => updated_count)
      0

/-- Price-score formula exactly as the spec words it for a sequence of at
least 60 points, applied to an already-sorted (date-descending) sequence:
`avg_recent` over indices 0–29, `avg_prior` over indices 30–59 (older
points ignored), zero-denominator guard, `50 + 50 * price_change`,
clamp to `[0, 100]`.  Stated from the spec for comparison with
`calculate_price_score`, which sorts internally. -/
def priceScoreSpec (sorted_prices : List PricePoint) : ℚ :=
  let avg_recent := ((sorted_prices.take 30).map PricePoint.close_price).sum / 30
  let avg_prior := (((sorted_prices.drop 30).take 30).map PricePoint.close_price).sum / 30
  if avg_prior = 0 then 50
  else
    let price_change := (avg_recent - avg_prior) / avg_prior
    let price_score := 50 + 50 * price_change
    max 0 (min 100 price_score)

/-- Strict variant of the price sort order, used to show the sorted list is
unique when dates are pairwise distinct: either the same point, or a
strictly later date first. -/
def priceDescStrict (a b : PricePoint) : Prop := a = b ∨ b.date < a.date

instance : IsAntisymm PricePoint priceDescStrict :=
  ⟨fun a b hab hba => by
    rcases hab with h | h
    · exact h
    · rcases hba with h2 | h2
      · exact h2.symm
      · exact absurd (lt_trans h h2) (lt_irrefl _)⟩

/-- The transformation of claim C8: scale the 30 most recent close prices
of a (date-descending sorted) 60-point sequence by `c`, leave the 30 prior
points unchanged.  Dates are untouched. -/
def scaleRecent (c : ℚ) (l : List PricePoint) : List PricePoint :=
  (l.take 30).map (fun p => { p with close_price := c * p.close_price }) ++ l.drop 30

/-- Concrete 60-point price series for Scenario D: most recent 30 closes
at 18, prior 30 closes at 10, dates 59 down to 0, giving
`price_change = 0.8` and price score 90. -/
def scenarioDPrices : List PricePoint :=
  (List.range 30).map (fun i => ⟨(59 - i : ℤ), 18⟩) ++
  (List.range 30).map (fun i => ⟨(29 - i : ℤ), 10⟩)

/-- Concrete sentiment window for Scenario D: one record with sentiment
`-0.6` and confidence `0.3`, giving sentiment score 20 and average
confidence 0.3. -/
def scenarioDSents : List SentimentRecord := [⟨-3/5, 3/10⟩]

/-- Concrete date-descending 60-point price series (all closes 10) used to
instantiate the monotonicity theorem. -/
def flatPrices : List PricePoint :=
  (List.range 60).map (fun i => ⟨(59 - i : ℤ), 10⟩)

/-- Fallible per-subject step used to instantiate the batch-runner
theorems: fails on subject 0, succeeds on every other subject. -/
def demoStep (n : ℕ) : Except Unit Unit := if n = 0 then .error () else .ok ()

/-! ## Helper lemmas -/

lemma roundHalfEven_intCast (n : ℤ) : roundHalfEven (n : ℚ) = n := by
  simp [roundHalfEven, Int.floor_intCast]

lemma round2_intCast (n : ℤ) : round2 (n : ℚ) = n := by
  rw [round2, show ((n : ℚ) * 100) = ((n * 100 : ℤ) : ℚ) by push_cast; ring,
    roundHalfEven_intCast]
  push_cast
  field_simp

lemma roundHalfEven_nonneg {x : ℚ} (hx : 0 ≤ x) : 0 ≤ roundHalfEven x := by
  have hf : (0 : ℤ) ≤ ⌊x⌋ := Int.floor_nonneg.mpr hx
  simp only [roundHalfEven]
  split_ifs <;> omega

lemma roundHalfEven_le_intCast {x : ℚ} {n : ℤ} (hx : x ≤ n) :
    roundHalfEven x ≤ n := by
  have hf : ⌊x⌋ ≤ n := by
    have h := Int.floor_le_floor (α := ℚ) hx
    simpa using h
  have key : ¬ (x - ⌊x⌋ < 1/2) → ⌊x⌋ < n := by
    intro h1
    rcases lt_or_eq_of_le hf with h | h
    · exact h
    · exfalso
      have hle : (1 : ℚ)/2 ≤ x - ⌊x⌋ := not_lt.mp h1
      rw [h] at hle
      linarith
  simp only [roundHalfEven]
  split_ifs with h1 h2 h3
  · exact hf
  · have := key h1; omega
  · exact hf
  · have := key h1; omega

lemma round2_bounds {x : ℚ} (h0 : 0 ≤ x) (h100 : x ≤ 100) :
    0 ≤ round2 x ∧ round2 x ≤ 100 := by
  constructor
  · apply div_nonneg _ (by norm_num)
    exact_mod_cast roundHalfEven_nonneg (by positivity)
  · rw [round2, div_le_iff (by norm_num)]
    have h : roundHalfEven (x * 100) ≤ (10000 : ℤ) :=
      roundHalfEven_le_intCast (by push_cast; nlinarith)
    calc (roundHalfEven (x * 100) : ℚ) ≤ 10000 := by exact_mod_cast h
    _ = 100 * 100 := by norm_num

lemma price_score_bounds (prices : List PricePoint) :
    0 ≤ calculate_price_score prices ∧ calculate_price_score prices ≤ 100 := by
  simp only [calculate_price_score]
  split_ifs
  · norm_num
  · norm_num
  · exact ⟨le_max_left _ _, max_le (by norm_num) (min_le_left _ _)⟩

lemma financial_score_bounds (statements : List FinancialStatement) :
    0 ≤ calculate_financial_score statements ∧
      calculate_financial_score statements ≤ 100 := by
  simp only [calculate_financial_score]
  split_ifs
  · norm_num
  · norm_num
  · exact ⟨le_max_left _ _, max_le (by norm_num) (min_le_left _ _)⟩

lemma sentiment_score_bounds {sentiments : List SentimentRecord}
    (h : ∀ r ∈ sentiments, -1 ≤ r.sentiment_score ∧ r.sentiment_score ≤ 1) :
    0 ≤ (calculate_sentiment_score sentiments).1 ∧
      (calculate_sentiment_score sentiments).1 ≤ 100 := by
  by_cases hl : sentiments = []
  · subst hl
    norm_num [calculate_sentiment_score]
  · have hlen : 0 < (sentiments.length : ℚ) := by
      exact_mod_cast List.length_pos.mpr hl
    have hmap : (sentiments.map SentimentRecord.sentiment_score).length
        = sentiments.length := List.length_map _ _
    have hub : (sentiments.map SentimentRecord.sentiment_score).sum
        ≤ (sentiments.length : ℚ) := by
      have := List.sum_le_card_nsmul
        (sentiments.map SentimentRecord.sentiment_score) 1
        (by
          intro x hx
          obtain ⟨r, hr, rfl⟩ := List.mem_map.mp hx
          exact (h r hr).2)
      simpa [hmap, nsmul_eq_mul] using this
    have hlb : -(sentiments.length : ℚ)
        ≤ (sentiments.map SentimentRecord.sentiment_score).sum := by
      have := List.card_nsmul_le_sum
        (sentiments.map SentimentRecord.sentiment_score) (-1)
        (by
          intro x hx
          obtain ⟨r, hr, rfl⟩ := List.mem_map.mp hx
          exact (h r hr).1)
      simpa [hmap, nsmul_eq_mul] using this
    have havg0 : -1 ≤ (sentiments.map SentimentRecord.sentiment_score).sum
        / (sentiments.length : ℚ) := by
      rw [le_div_iff hlen]
      linarith
    have havg1 : (sentiments.map SentimentRecord.sentiment_score).sum
        / (sentiments.length : ℚ) ≤ 1 := by
      rw [div_le_one hlen]
      linarith
    simp only [calculate_sentiment_score, hl, if_false, if_neg hl]
    constructor <;> [linarith; linarith]


lemma price_score_of_sorted {l : List PricePoint} (hs : List.Sorted priceDesc l)
    (hlen : 60 ≤ l.length) : calculate_price_score l = priceScoreSpec l := by
  unfold calculate_price_score
  rw [if_neg (by omega), List.Sorted.insertionSort_eq hs]
  rfl

lemma scenarioD_price_score : calculate_price_score scenarioDPrices = 90 := by
  rw [price_score_of_sorted (by decide) (by decide)]
  unfold priceScoreSpec scenarioDPrices
  rw [List.take_left' (by simp), List.drop_left' (by simp)]
  simp only [List.map_map, Function.comp_def]
  norm_num [List.map_const', List.sum_replicate, List.length_range]

lemma scenarioD_sentiment :
    calculate_sentiment_score scenarioDSents = (20, 3/10) := by
  norm_num [calculate_sentiment_score, scenarioDSents]

lemma sorted_strict_of_pairwise_ne {l : List PricePoint}
    (hs : List.Sorted priceDesc l)
    (hnd : l.Pairwise (fun a b => a.date ≠ b.date)) :
    List.Sorted priceDescStrict l :=
  (List.Pairwise.and hs hnd).imp
    (fun h => Or.inr (lt_of_le_of_ne h.1 (Ne.symm h.2)))

lemma pairwise_ne_of_perm {l l' : List PricePoint} (h : l.Perm l')
    (hnd : l.Pairwise (fun a b => a.date ≠ b.date)) :
    l'.Pairwise (fun a b => a.date ≠ b.date) :=
  (h.pairwise_iff (fun h' => Ne.symm h')).mp hnd

lemma insertionSort_eq_of_perm {l l' : List PricePoint}
    (hperm : l'.Perm l)
    (hnd : l.Pairwise (fun a b => a.date ≠ b.date)) :
    List.insertionSort priceDesc l' = List.insertionSort priceDesc l := by
  have hperm2 : (List.insertionSort priceDesc l').Perm
      (List.insertionSort priceDesc l) :=
    (List.perm_insertionSort priceDesc l').trans
      (hperm.trans (List.perm_insertionSort priceDesc l).symm)
  have hnd₁ : (List.insertionSort priceDesc l).Pairwise
      (fun a b => a.date ≠ b.date) :=
    pairwise_ne_of_perm (List.perm_insertionSort priceDesc l).symm hnd
  have hnd₂ : (List.insertionSort priceDesc l').Pairwise
      (fun a b => a.date ≠ b.date) :=
    pairwise_ne_of_perm
      ((hperm.symm).trans (List.perm_insertionSort priceDesc l').symm) hnd
  exact List.eq_of_perm_of_sorted hperm2
    (sorted_strict_of_pairwise_ne (List.sorted_insertionSort priceDesc l') hnd₂)
    (sorted_strict_of_pairwise_ne (List.sorted_insertionSort priceDesc l) hnd₁)

/-! ## Theorems -/

/-- C5: every price sequence with fewer than 60 points scores exactly 50,
independent of the point values. -/
theorem price_score_insufficient_data (prices : List PricePoint)
    (h : prices.length < 60) : calculate_price_score prices = 50 := by
  simp [calculate_price_score, h]

theorem price_score_insufficient_data_witness :
    ([⟨0, 123⟩] : List PricePoint).length < 60 ∧
      calculate_price_score [⟨0, 123⟩] = 50 :=
  ⟨by decide, price_score_insufficient_data [⟨0, 123⟩] (by decide)⟩

/-- C3: an empty sentiment window returns exactly the raw pair
`(0.0, 0.0)`, not mapped through the 50-centering scale, while every
non-empty window returns `50 + 50 * avg_sentiment` (and the average
confidence). -/
theorem sentiment_empty_unscaled :
    calculate_sentiment_score [] = (0, 0) ∧
    ∀ l : List SentimentRecord, l ≠ [] →
      calculate_sentiment_score l =
        (50 + 50 * ((l.map SentimentRecord.sentiment_score).sum / l.length),
         (l.map SentimentRecord.confidence_level).sum / l.length) := by
  refine ⟨rfl, fun l hl => ?_⟩
  simp [calculate_sentiment_score, hl]

theorem sentiment_empty_unscaled_witness :
    calculate_sentiment_score [⟨1, 1⟩] =
      (50 + 50 * ((([⟨1, 1⟩] : List SentimentRecord).map
          SentimentRecord.sentiment_score).sum / ([⟨1, 1⟩] : List SentimentRecord).length),
       (([⟨1, 1⟩] : List SentimentRecord).map
          SentimentRecord.confidence_level).sum / ([⟨1, 1⟩] : List SentimentRecord).length) :=
  sentiment_empty_unscaled.2 [⟨1, 1⟩] (by decide)

/-- C9: with an empty sentiment window the with-sentiment company
classifier always takes the low-confidence branch (confidence 0 is not
above 0.5), the sentiment term contributes nothing, so the investment
score is `0.4 * price_score + 0.4 * financial_score`, and the risk level
is always "high" because the sentiment score 0 is below 40. -/
theorem company_ai_empty_sentiment
    (prices : List PricePoint) (statements : List FinancialStatement) :
    (calculate_company_recommendation_with_ai prices statements []).investment_score
        = round2 (0.4 * calculate_price_score prices
            + 0.4 * calculate_financial_score statements) ∧
    (calculate_company_recommendation_with_ai prices statements []).risk_level
        = "high" := by
  have hs : calculate_sentiment_score [] = (0, 0) := rfl
  constructor <;> simp [calculate_company_recommendation_with_ai, hs] <;> norm_num

/-- C6: the with-sentiment company classifier blends with weights
0.3/0.3/0.4 when the average confidence exceeds 0.5 and with 0.4/0.4/0.2
otherwise, and labels the result "invest" at or above 70, "invest" at or
above 55, "hold" at or above 40, and "dont_invest" below that
(thresholds applied to the unrounded blend; the reported
`investment_score` is the blend rounded to two decimals). -/
theorem company_ai_blend_and_thresholds
    (prices : List PricePoint) (statements : List FinancialStatement)
    (sentiments : List SentimentRecord) :
    let ps := calculate_price_score prices
    let fs := calculate_financial_score statements
    let sc := (calculate_sentiment_score sentiments).1
    let avg_conf := (calculate_sentiment_score sentiments).2
    let blend :=
      if avg_conf > 0.5 then 0.3 * ps + 0.3 * fs + 0.4 * sc
      else 0.4 * ps + 0.4 * fs + 0.2 * sc
    (calculate_company_recommendation_with_ai prices statements
        sentiments).investment_score = round2 blend ∧
    (calculate_company_recommendation_with_ai prices statements
        sentiments).recommendation_type =
      (if blend ≥ 70 then "invest"
       else if blend ≥ 55 then "invest"
       else if blend ≥ 40 then "hold"
       else "dont_invest") :=
  ⟨rfl, rfl⟩

/-- C1, counterexample: the sentiment sub-score is not clamped to
`[0, 100]` before blending.  A single sentiment record with raw score 3
(outside the contractual `[-1, 1]`) yields sentiment sub-score 200 and,
with neutral price and financial scores, a blended investment score of
110, outside `[0, 100]`. -/
theorem sub_scores_clamped_counterexample :
    (calculate_company_recommendation_with_ai [] [] [⟨3, 1⟩]).sentiment_score
        = 200 ∧
    (calculate_company_recommendation_with_ai [] [] [⟨3, 1⟩]).investment_score
        = 110 ∧
    ¬ (calculate_company_recommendation_with_ai [] [] [⟨3, 1⟩]).investment_score
        ≤ 100 := by
  have hps : calculate_price_score [] = 50 := by norm_num [calculate_price_score]
  have hfs : calculate_financial_score [] = 50 := by
    norm_num [calculate_financial_score]
  have hsc : calculate_sentiment_score [⟨3, 1⟩] = (200, 1) := by
    norm_num [calculate_sentiment_score]
  have h200 : round2 (200 : ℚ) = 200 := by
    rw [show (200 : ℚ) = ((200 : ℤ) : ℚ) by norm_num, round2_intCast]
  have h110 : round2 (110 : ℚ) = 110 := by
    rw [show (110 : ℚ) = ((110 : ℤ) : ℚ) by norm_num, round2_intCast]
  refine ⟨?_, ?_, ?_⟩ <;>
    simp only [calculate_company_recommendation_with_ai, hps, hfs, hsc] <;>
    norm_num [h200, h110]

/-- C1, amended: the price and financial sub-scores are clamped to
`[0, 100]`; the sentiment sub-score is not clamped, but whenever every
sentiment record carries a raw score in the contractual `[-1, 1]` range it
lies in `[0, 100]` as well, and then — the blending weights summing to 1
in every branch — the investment score of each of the three classifiers
lies in `[0, 100]` without any re-clamping after blending. -/
theorem scores_bounded
    (prices : List PricePoint) (statements : List FinancialStatement)
    (sentiments : List SentimentRecord)
    (hsent : ∀ r ∈ sentiments, -1 ≤ r.sentiment_score ∧ r.sentiment_score ≤ 1) :
    (0 ≤ calculate_price_score prices ∧ calculate_price_score prices ≤ 100) ∧
    (0 ≤ calculate_financial_score statements ∧
      calculate_financial_score statements ≤ 100) ∧
    (0 ≤ (calculate_sentiment_score sentiments).1 ∧
      (calculate_sentiment_score sentiments).1 ≤ 100) ∧
    (0 ≤ (calculate_company_recommendation_with_ai prices statements
        sentiments).investment_score ∧
      (calculate_company_recommendation_with_ai prices statements
        sentiments).investment_score ≤ 100) ∧
    (0 ≤ (calculate_company_recommendation_no_ai prices
        statements).investment_score ∧
      (calculate_company_recommendation_no_ai prices
        statements).investment_score ≤ 100) ∧
    (0 ≤ (calculate_asset_recommendation prices
        sentiments).investment_score ∧
      (calculate_asset_recommendation prices
        sentiments).investment_score ≤ 100) := by
  obtain ⟨hp0, hp1⟩ := price_score_bounds prices
  obtain ⟨hf0, hf1⟩ := financial_score_bounds statements
  obtain ⟨hs0, hs1⟩ := sentiment_score_bounds hsent
  refine ⟨⟨hp0, hp1⟩, ⟨hf0, hf1⟩, ⟨hs0, hs1⟩, ?_, ?_, ?_⟩
  · show 0 ≤ round2 _ ∧ round2 _ ≤ 100
    apply round2_bounds <;> split_ifs <;> linarith
  · show 0 ≤ round2 _ ∧ round2 _ ≤ 100
    apply round2_bounds <;> linarith
  · show 0 ≤ round2 _ ∧ round2 _ ≤ 100
    apply round2_bounds <;> split_ifs <;> linarith

theorem scores_bounded_witness :
    (∀ r ∈ ([⟨1, 1⟩] : List SentimentRecord),
        -1 ≤ r.sentiment_score ∧ r.sentiment_score ≤ 1) ∧
    (0 ≤ (calculate_company_recommendation_with_ai [] []
        [⟨1, 1⟩]).investment_score ∧
      (calculate_company_recommendation_with_ai [] []
        [⟨1, 1⟩]).investment_score ≤ 100) :=
  ⟨by decide, (scores_bounded [] [] [⟨1, 1⟩] (by decide)).2.2.2.1⟩

/-- C2, amended: for the asset classifier with price score 90, sentiment
score 20 and average confidence 0.3 (not above 0.5), the investment score
is `0.7*90 + 0.3*20 = 69.0`, the recommendation_type is "invest" (the
55-threshold moderate-invest band, since 55 ≤ 69 < 70), and the
risk_level is "high" (sentiment score below 40). -/
theorem asset_scenario_d (prices : List PricePoint)
    (sentiments : List SentimentRecord)
    (hp : calculate_price_score prices = 90)
    (hs : calculate_sentiment_score sentiments = (20, 3/10)) :
    (calculate_asset_recommendation prices sentiments).investment_score = 69 ∧
    (calculate_asset_recommendation prices sentiments).recommendation_type
        = "invest" ∧
    (calculate_asset_recommendation prices sentiments).risk_level = "high" := by
  have h69 : round2 (69 : ℚ) = 69 := by
    rw [show (69 : ℚ) = ((69 : ℤ) : ℚ) by norm_num, round2_intCast]
  refine ⟨?_, ?_, ?_⟩ <;>
    simp only [calculate_asset_recommendation, hp, hs] <;>
    norm_num [h69]

theorem asset_scenario_d_witness :
    calculate_price_score scenarioDPrices = 90 ∧
    calculate_sentiment_score scenarioDSents = (20, 3/10) ∧
    (calculate_asset_recommendation scenarioDPrices
        scenarioDSents).investment_score = 69 ∧
    (calculate_asset_recommendation scenarioDPrices
        scenarioDSents).risk_level = "high" :=
  ⟨scenarioD_price_score, scenarioD_sentiment,
    (asset_scenario_d _ _ scenarioD_price_score scenarioD_sentiment).1,
    (asset_scenario_d _ _ scenarioD_price_score scenarioD_sentiment).2.2⟩

/-- C2, counterexample: on a concrete invocation realising Scenario D
(price score 90, sentiment score 20, confidence 0.3), the asset
classifier returns investment score 69 with recommendation_type
"invest" — not "hold" as the claim states, because 69 is at or above the
55 invest threshold. -/
theorem asset_scenario_d_counterexample :
    (calculate_asset_recommendation scenarioDPrices scenarioDSents).price_score
        = 90 ∧
    (calculate_asset_recommendation scenarioDPrices
        scenarioDSents).sentiment_score = 20 ∧
    (calculate_asset_recommendation scenarioDPrices
        scenarioDSents).investment_score = 69 ∧
    (calculate_asset_recommendation scenarioDPrices
        scenarioDSents).recommendation_type = "invest" ∧
    ¬ (calculate_asset_recommendation scenarioDPrices
        scenarioDSents).recommendation_type = "hold" := by
  have hp := scenarioD_price_score
  have hs := scenarioD_sentiment
  have h69 : round2 (69 : ℚ) = 69 := by
    rw [show (69 : ℚ) = ((69 : ℤ) : ℚ) by norm_num, round2_intCast]
  have h90 : round2 (90 : ℚ) = 90 := by
    rw [show (90 : ℚ) = ((90 : ℤ) : ℚ) by norm_num, round2_intCast]
  have h20 : round2 (20 : ℚ) = 20 := by
    rw [show (20 : ℚ) = ((20 : ℤ) : ℚ) by norm_num, round2_intCast]
  refine ⟨?_, ?_, ?_, ?_, ?_⟩ <;>
    simp only [calculate_asset_recommendation, hp, hs] <;>
    norm_num [h69, h90, h20] <;> decide


/-- C7: whenever the two most recent statements after the internal sort by
period_end_date descending have `previous.revenue = 0`, the financial
score is exactly 50, regardless of `current.revenue`: the zero-denominator
guard fires before any division. -/
theorem financial_score_prev_revenue_zero
    (statements : List FinancialStatement)
    (cur prev : FinancialStatement) (rest : List FinancialStatement)
    (hsort : List.insertionSort stmtDesc statements = cur :: prev :: rest)
    (hz : prev.revenue = 0) :
    calculate_financial_score statements = 50 := by
  have hlen : 2 ≤ statements.length := by
    have h := List.length_insertionSort stmtDesc statements
    rw [hsort] at h
    simp only [List.length_cons] at h
    omega
  unfold calculate_financial_score
  rw [if_neg (by omega), hsort]
  simp [hz]

theorem financial_score_prev_revenue_zero_witness :
    List.insertionSort stmtDesc [⟨0, 0⟩, ⟨1, 5⟩]
        = [(⟨1, 5⟩ : FinancialStatement), ⟨0, 0⟩] ∧
    (⟨0, 0⟩ : FinancialStatement).revenue = 0 ∧
    calculate_financial_score [⟨0, 0⟩, ⟨1, 5⟩] = 50 :=
  ⟨by decide, by decide,
    financial_score_prev_revenue_zero [⟨0, 0⟩, ⟨1, 5⟩] ⟨1, 5⟩ ⟨0, 0⟩ []
      (by decide) (by decide)⟩

/-- C10: in both batch runners a failing per-subject step is skipped
without incrementing the updated count, processing continues with every
remaining subject, and the runner returns the number of successfully
updated subjects. -/
theorem batch_skips_failed_subjects {α ε : Type} (step : α → Except ε Unit)
    (l₁ l₂ : List α) (s : α) (e : ε) (hs : step s = .error e) :
    update_company_recommendations step (l₁ ++ s :: l₂)
        = update_company_recommendations step l₁
          + update_company_recommendations step l₂ ∧
    update_asset_recommendations step (l₁ ++ s :: l₂)
        = update_asset_recommendations step l₁
          + update_asset_recommendations step l₂ ∧
    (∀ l : List α, update_company_recommendations step l
        = l.countP (fun a =>
            match step a with | .ok _ => true | .error _ => false)) ∧
    (∀ l : List α, update_asset_recommendations step l
        = l.countP (fun a =>
            match step a with | .ok _ => true | .error _ => false)) := by
  have hloop : ∀ (l : List α) (n : ℕ),
      l.foldl (fun updated_count subject =>
        match step subject with
        | .ok _ => updated_count + 1
        | .error _ => updated_count) n
      = n + l.countP (fun a =>
          match step a with | .ok _ => true | .error _ => false) := by
    intro l
    induction l with
    | nil => intro n; simp
    | cons a t ih =>
      intro n
      rw [List.foldl_cons, List.countP_cons]
      cases h : step a
      case ok v =>
        simp only [h, if_true]
        rw [ih]
        ring
      case error e =>
        simp only [h, Bool.false_eq_true, if_false]
        rw [ih]
        ring
  have hcompany : ∀ l : List α, update_company_recommendations step l
      = l.countP (fun a =>
          match step a with | .ok _ => true | .error _ => false) := by
    intro l
    cases l with
    | nil => rfl
    | cons a t =>
      unfold update_company_recommendations
      rw [if_neg (by simp), hloop]
      simp
  have hasset : ∀ l : List α, update_asset_recommendations step l
      = l.countP (fun a =>
          match step a with | .ok _ => true | .error _ => false) := by
    intro l
    cases l with
    | nil => rfl
    | cons a t =>
      unfold update_asset_recommendations
      rw [if_neg (by simp), hloop]
      simp
  refine ⟨?_, ?_, hcompany, hasset⟩
  · rw [hcompany, hcompany, hcompany, List.countP_append, List.countP_cons, hs]
    simp
  · rw [hasset, hasset, hasset, List.countP_append, List.countP_cons, hs]
    simp

theorem batch_skips_failed_subjects_witness :
    demoStep 0 = .error () ∧
    update_company_recommendations demoStep ([1] ++ 0 :: [2, 3])
        = update_company_recommendations demoStep [1]
          + update_company_recommendations demoStep [2, 3] ∧
    update_asset_recommendations demoStep ([1] ++ 0 :: [2, 3])
        = update_asset_recommendations demoStep [1]
          + update_asset_recommendations demoStep [2, 3] :=
  ⟨rfl,
    (batch_skips_failed_subjects demoStep [1] [2, 3] 0 () rfl).1,
    (batch_skips_failed_subjects demoStep [1] [2, 3] 0 () rfl).2.1⟩

/-- C4: for at least 60 points with pairwise-distinct dates, the price
score of any reordering of the input equals the spec formula applied to
the date-descending sort — `avg_recent` over sorted indices 0–29,
`avg_prior` over 30–59, older points ignored, zero-denominator guard,
`50 + 50 * price_change` clamped to `[0, 100]` — so the result is
independent of the input order. -/
theorem price_score_sort_invariant
    (l l' : List PricePoint) (hperm : l'.Perm l) (hlen : 60 ≤ l.length)
    (hnd : l.Pairwise (fun a b => a.date ≠ b.date)) :
    calculate_price_score l' = priceScoreSpec (List.insertionSort priceDesc l) ∧
    calculate_price_score l' = calculate_price_score l := by
  have hlen' : 60 ≤ l'.length := by rw [hperm.length_eq]; exact hlen
  have hsorteq := insertionSort_eq_of_perm hperm hnd
  have h1 : calculate_price_score l'
      = priceScoreSpec (List.insertionSort priceDesc l) := by
    unfold calculate_price_score
    rw [if_neg (by omega), hsorteq]
    rfl
  have h2 : calculate_price_score l
      = priceScoreSpec (List.insertionSort priceDesc l) := by
    unfold calculate_price_score
    rw [if_neg (by omega)]
    rfl
  exact ⟨h1, h1.trans h2.symm⟩

theorem price_score_sort_invariant_witness :
    flatPrices.reverse.Perm flatPrices ∧ 60 ≤ flatPrices.length ∧
    calculate_price_score flatPrices.reverse
      = calculate_price_score flatPrices :=
  ⟨flatPrices.reverse_perm, by decide,
    (price_score_sort_invariant flatPrices flatPrices.reverse
      flatPrices.reverse_perm (by decide) (by decide)).2⟩


/-- C8: scaling the 30 most recent close prices of a 60-point
date-descending sequence of nonnegative prices up by a factor `c ≥ 1`
while leaving the 30 prior points unchanged never decreases the price
score. -/
theorem price_score_monotone_in_recent
    (l : List PricePoint) (c : ℚ)
    (hlen : l.length = 60)
    (hsorted : List.Sorted priceDesc l)
    (hnonneg : ∀ p ∈ l, 0 ≤ p.close_price)
    (hc : 1 ≤ c) :
    calculate_price_score l ≤ calculate_price_score (scaleRecent c l) := by
  have htake : (l.take 30).length = 30 := by
    rw [List.length_take]; omega
  have hdrop : (l.drop 30).length = 30 := by
    rw [List.length_drop]; omega
  have hmaplen : ((l.take 30).map
      (fun p => { p with close_price := c * p.close_price })).length = 30 := by
    rw [List.length_map]; exact htake
  have hlen2 : (scaleRecent c l).length = 60 := by
    unfold scaleRecent
    rw [List.length_append, List.length_map, htake, hdrop]
  have hsplit : List.Pairwise priceDesc (l.take 30 ++ l.drop 30) := by
    rw [List.take_append_drop]; exact hsorted
  obtain ⟨ht, hd, hcross⟩ := List.pairwise_append.mp hsplit
  have hsorted2 : List.Sorted priceDesc (scaleRecent c l) := by
    unfold scaleRecent
    refine List.pairwise_append.mpr ⟨?_, hd, ?_⟩
    · exact List.pairwise_map.mpr (ht.imp (fun h => h))
    · intro a ha b hb
      obtain ⟨a₀, ha₀, rfl⟩ := List.mem_map.mp ha
      exact hcross a₀ ha₀ b hb
  have hstake : (scaleRecent c l).take 30
      = (l.take 30).map (fun p => { p with close_price := c * p.close_price }) := by
    unfold scaleRecent
    exact List.take_left' hmaplen
  have hsdrop : (scaleRecent c l).drop 30 = l.drop 30 := by
    unfold scaleRecent
    exact List.drop_left' hmaplen
  have hdt : (l.drop 30).take 30 = l.drop 30 :=
    List.take_of_length_le (by omega)
  have hA : (0:ℚ) ≤ ((l.take 30).map PricePoint.close_price).sum := by
    apply List.sum_nonneg
    intro x hx
    obtain ⟨p, hp, rfl⟩ := List.mem_map.mp hx
    exact hnonneg p (List.mem_of_mem_take hp)
  have hB : (0:ℚ) ≤ ((l.drop 30).map PricePoint.close_price).sum := by
    apply List.sum_nonneg
    intro x hx
    obtain ⟨p, hp, rfl⟩ := List.mem_map.mp hx
    exact hnonneg p (List.mem_of_mem_drop hp)
  have hscaled_sum : (((l.take 30).map
        (fun p => { p with close_price := c * p.close_price })).map
          PricePoint.close_price).sum
      = c * ((l.take 30).map PricePoint.close_price).sum := by
    rw [List.map_map]
    simp only [Function.comp_def]
    exact List.sum_map_mul_left _ _ _
  simp only [calculate_price_score]
  rw [if_neg (show ¬ (l.length < 60) by omega),
    if_neg (show ¬ ((scaleRecent c l).length < 60) by omega),
    List.Sorted.insertionSort_eq hsorted,
    List.Sorted.insertionSort_eq hsorted2,
    hstake, hsdrop, hdt, hscaled_sum]
  set A := ((l.take 30).map PricePoint.close_price).sum with hAdef
  set B := ((l.drop 30).map PricePoint.close_price).sum with hBdef
  by_cases hB0 : B / 30 = 0
  · rw [if_pos hB0, if_pos hB0]
  · rw [if_neg hB0, if_neg hB0]
    have hBnn : (0:ℚ) ≤ B / 30 := div_nonneg hB (by norm_num)
    have hBpos : 0 < B / 30 := lt_of_le_of_ne hBnn (Ne.symm hB0)
    have hAc : A ≤ c * A := le_mul_of_one_le_left hA hc
    have h30 : (0:ℚ) < 30 := by norm_num
    have hdiv : A / 30 ≤ c * A / 30 := (div_le_div_right h30).mpr hAc
    have hmono : (A / 30 - B / 30) / (B / 30)
        ≤ (c * A / 30 - B / 30) / (B / 30) :=
      (div_le_div_right hBpos).mpr (by linarith)
    refine max_le_max (le_refl 0) (min_le_min (le_refl 100) ?_)
    linarith


theorem price_score_monotone_in_recent_witness :
    flatPrices.length = 60 ∧ (1:ℚ) ≤ 2 ∧
    calculate_price_score flatPrices
      ≤ calculate_price_score (scaleRecent 2 flatPrices) :=
  ⟨by decide, by decide,
    price_score_monotone_in_recent flatPrices 2 (by decide) (by decide)
      (by decide) (by decide)⟩

end BusinessAnalyzer
